import Mathlib

/-!
Verification of the MQTT telemetry ingestion pipeline (`MqttService`) of the
RaspberryPi4B-Server repository, shallowly embedded in Lean 4.

The embedding follows `src/app/services/mqtt_service.py` (handler
`on_message`, retry loop `connect_db_with_retry`, lifecycle `start` /
`stop` / `is_running`) and the persistence contract of
`src/app/services/db.py` (`execute_query` returns row lists;
`execute_non_query` commits each insert as its own unit of work and
rolls back and re-raises on failure, so a failed insert leaves the store
unchanged while earlier committed inserts persist).

Modelling conventions:
* JSON scalar values delivered by `json.loads` are `PyVal` (Python ints,
  floats, bools, strings, None).  Python floats are modelled as `Rat`.
* A JSON object is an association list in insertion order, as iterated by
  `payload.items()`.
* The environment (`Env`) gives the outcome of the n-th `db.connect()`
  attempt, the outcome of the n-th `execute_non_query` call, and the
  wall-clock string `datetime.now().isoformat()`.
* A raw MQTT payload that `json.loads` fails to decode is `none`; a decoded
  object is `some payload`.
* The handler catches every exception (`except Exception`), so `on_message`
  is a total function returning the database state reached when the handler
  returns; state mutated by inserts committed before an exception is kept,
  matching per-statement commit in `db.py`.
-/

namespace RaspberryPiServer

/-- Scalar JSON values as decoded by `json.loads` into Python objects. -/
inductive PyVal where
  | vInt : Int → PyVal
  | vFloat : Rat → PyVal
  | vBool : Bool → PyVal
  | vStr : String → PyVal
  | vNull : PyVal
deriving Repr, DecidableEq

/-- Python `isinstance(value, (int, float))`: true for `int`, `float` and
`bool` (Python `bool` is a subtype of `int`), false otherwise.  This is the
numeric filter on line 83 of `mqtt_service.py`. -/
def isNumericPy : PyVal → Bool
  | .vInt _ => true
  | .vFloat _ => true
  | .vBool _ => true
  | .vStr _ => false
  | .vNull => false

/-- Python `float(value)` on values that pass `isNumericPy`
(`bool` coerces to `1.0` / `0.0`).  Junk value `0` on non-numeric input,
which the code never reaches. -/
def pyFloat : PyVal → Rat
  | .vInt n => (n : Rat)
  | .vFloat q => q
  | .vBool b => if b then 1 else 0
  | .vStr _ => 0
  | .vNull => 0

/-- Value of a run of decimal digits; `none` when the run is empty or has a
non-digit, as for Python `int(str)`. -/
def digitRunVal (cs : List Char) : Option Nat :=
  if cs = [] then none
  else if cs.all Char.isDigit then
    some (cs.foldl (fun n c => n * 10 + (c.toNat - 48)) 0)
  else none

/-- Strip leading and trailing whitespace from a character list, as Python
`int(str)` does before parsing. -/
def stripWs (cs : List Char) : List Char :=
  ((cs.dropWhile Char.isWhitespace).reverse.dropWhile Char.isWhitespace).reverse

/-- Python `int(s)` for a string `s`: optional surrounding whitespace, an
optional sign, then a nonempty digit run; anything else raises `ValueError`
(modelled as `none`). -/
def pyIntOfString (s : String) : Option Int :=
  match stripWs s.data with
  | '-' :: rest => (digitRunVal rest).map (fun n => -(n : Int))
  | '+' :: rest => (digitRunVal rest).map (fun n => (n : Int))
  | cs => (digitRunVal cs).map (fun n => (n : Int))

/-- Truncation toward zero, as Python `int(float)`. -/
def ratTrunc (q : Rat) : Int :=
  if 0 ≤ q then ⌊q⌋ else ⌈q⌉

/-- Python `int(value)` on a decoded JSON scalar: identity on ints,
truncation on floats, `0`/`1` on bools, literal parsing on strings, and a
raised `TypeError`/`ValueError` (i.e. `none`) on `None` and non-numeric
strings. -/
def pyInt : PyVal → Option Int
  | .vInt n => some n
  | .vFloat q => some (ratTrunc q)
  | .vBool b => some (if b then 1 else 0)
  | .vStr s => pyIntOfString s
  | .vNull => none

/-- Python truthiness of a decoded JSON scalar, used by
`payload.get("timestamp") or datetime.now().isoformat()`. -/
def pyTruthy : PyVal → Bool
  | .vInt n => n != 0
  | .vFloat q => q != 0
  | .vBool b => b
  | .vStr s => s != ""
  | .vNull => false

/-- A decoded JSON object: fields in insertion order, as iterated by
`payload.items()`. -/
abbrev Payload := List (String × PyVal)

/-- Python `payload.get(k, d)`: the first binding of `k`, else the default. -/
def pyGet (p : Payload) (k : String) (d : PyVal) : PyVal :=
  match p.find? (fun kv => kv.1 == k) with
  | some kv => kv.2
  | none => d

/-- A row of the `measurement` (or `dev`) table as inserted by the handler:
`INSERT INTO measurement (channel_id, value, quality, ts)`.  The `ts`
parameter is passed through as the raw JSON value (or the wall-clock
string). -/
structure Row where
  channel_id : Int
  value : Rat
  quality : String
  ts : PyVal
deriving Repr, DecidableEq

/-- The database state visible to the collector: the read-only `channel`
table (rows `(device_id, channel_name, channel_id)` in table order) and the
append-only `measurement` and `dev` tables. -/
structure DBState where
  channels : List (Int × String × Int)
  measurement : List Row
  dev : List Row
deriving Repr, DecidableEq

/-- `SELECT channel_id FROM channel WHERE device_id = %s AND channel_name = %s`:
the `channel_id` of every matching row, in table order. -/
def channelLookup (st : DBState) (device_id : Int) (name : String) : List Int :=
  (st.channels.filter (fun c => c.1 == device_id && c.2.1 == name)).map
    (fun c => c.2.2)

/-- The reserved payload keys skipped by the field loop (line 81 of
`mqtt_service.py`). -/
def reservedKeys : List String :=
  ["factory_id", "gateway_id", "device", "area_id", "machine", "timestamp"]

/-- Outcome of `connect_db_with_retry`: whether it returned `True`, how many
`db.connect()` attempts it made, and the total seconds spent in
`time.sleep(delay)` (one sleep after every failed attempt). -/
structure RetryOutcome where
  success : Bool
  attempts : Nat
  sleepSeconds : Nat
deriving Repr, DecidableEq

/-- The retry loop body: `attempt` is the index of the next `db.connect()`
call (the oracle `connectOk` gives each attempt's outcome), `fuel` the
remaining iterations of `for attempt in range(retries)`. -/
def connectRetryAux (connectOk : Nat → Bool) (delay : Nat) :
    Nat → Nat → RetryOutcome
  | _, 0 => ⟨false, 0, 0⟩
  | attempt, fuel + 1 =>
    if connectOk attempt then ⟨true, 1, 0⟩
    else
      let r := connectRetryAux connectOk delay (attempt + 1) fuel
      ⟨r.success, r.attempts + 1, r.sleepSeconds + delay⟩

/-- `MqttService.connect_db_with_retry(retries, delay)`: try `db.connect()`
up to `retries` times, sleeping `delay` seconds after each failure; return
`True` on the first success, `False` after exhausting the budget. -/
def connect_db_with_retry (connectOk : Nat → Bool) (retries delay : Nat) :
    RetryOutcome :=
  connectRetryAux connectOk delay 0 retries

/-- The environment of one `on_message` invocation: the outcome of the n-th
`db.connect()` attempt, the outcome of the n-th `execute_non_query` call,
and `datetime.now().isoformat()`. -/
structure Env where
  connectOk : Nat → Bool
  writeOk : Nat → Bool
  now : String

/-- The field loop of `on_message` (lines 80-112 of `mqtt_service.py`).
Arguments: the write-outcome oracle, the extracted `device_id` and
`timestamp`, the database state so far, the index of the next
`execute_non_query` call, and the remaining payload fields.  Returns the
final state, the next write index, and `true` when the loop finished
normally (`false` when an insert raised, which aborts the loop; the
exception is caught by the handler's outer `except`).  A failed insert
rolls back, so it leaves the state unchanged; each successful insert is
committed immediately. -/
def processFields (writeOk : Nat → Bool) (device_id : Int) (ts : PyVal) :
    DBState → Nat → Payload → DBState × Nat × Bool
  | st, wIdx, [] => (st, wIdx, true)
  | st, wIdx, (k, v) :: rest =>
    if k ∈ reservedKeys then
      processFields writeOk device_id ts st wIdx rest
    else if isNumericPy v then
      match channelLookup st device_id k with
      | [] => processFields writeOk device_id ts st wIdx rest
      | channel_id :: _ =>
        let row : Row := ⟨channel_id, pyFloat v, "Good", ts⟩
        if writeOk wIdx then
          let st1 := { st with measurement := st.measurement ++ [row] }
          if writeOk (wIdx + 1) then
            let st2 := { st1 with dev := st1.dev ++ [row] }
            processFields writeOk device_id ts st2 (wIdx + 2) rest
          else (st1, wIdx + 2, false)
        else (st, wIdx + 1, false)
    else
      processFields writeOk device_id ts st wIdx rest

/-- The body of `on_message` after a successful JSON decode:
`device_id = int(payload.get("device", 0))` (a raised coercion error is
caught by the outer `except`, leaving the state unchanged), the
`timestamp` default, the DB-availability gate, then the field loop. -/
def handleDecoded (env : Env) (st : DBState) (payload : Payload) : DBState :=
  match pyInt (pyGet payload "device" (.vInt 0)) with
  | none => st
  | some device_id =>
    let tsRaw := pyGet payload "timestamp" .vNull
    let ts := if pyTruthy tsRaw then tsRaw else .vStr env.now
    if (connect_db_with_retry env.connectOk 5 2).success then
      (processFields env.writeOk device_id ts st 0 payload).1
    else st

/-- `MqttService.on_message`: `msg = none` models a raw payload on which
`json.loads` raises (caught and logged, state unchanged); otherwise the
decoded object is processed by `handleDecoded`.  Total, because the
handler's `try`/`except Exception` catches everything. -/
def on_message (env : Env) (st : DBState) (msg : Option Payload) : DBState :=
  match msg with
  | none => st
  | some payload => handleDecoded env st payload

/-- Report printed by `MqttService.start`. -/
inductive StartReport where
  | started
  | alreadyRunning
deriving Repr, DecidableEq

/-- Report printed by `MqttService.stop`. -/
inductive StopReport where
  | stopped
  | notRunning
deriving Repr, DecidableEq

/-- The lifecycle state of the collector: the `_running` flag and the number
of active collector loop threads (a spawned `_loop` thread exits at its next
poll of `_running` once `stop` clears the flag). -/
structure CollectorState where
  running : Bool
  activeLoops : Nat
deriving Repr, DecidableEq

/-- `MqttService.start`: a no-op reporting `alreadyRunning` when `_running`
is set; otherwise sets the flag and spawns one `_loop` thread. -/
def start (s : CollectorState) : CollectorState × StartReport :=
  if s.running then (s, .alreadyRunning)
  else ({ running := true, activeLoops := s.activeLoops + 1 }, .started)

/-- `MqttService.stop`: a no-op reporting `notRunning` when `_running` is
clear; otherwise clears the flag, upon which every loop thread exits at its
next poll. -/
def stop (s : CollectorState) : CollectorState × StopReport :=
  if s.running then ({ running := false, activeLoops := 0 }, .stopped)
  else (s, .notRunning)

/-- `MqttService.is_running`. -/
def is_running (s : CollectorState) : Bool :=
  s.running

/-! ### Concrete scenario data -/

/-- An environment in which every `db.connect()` and every insert succeeds
and `datetime.now().isoformat()` is the string `"NOW"`. -/
def envAllOk : Env := ⟨fun _ => true, fun _ => true, "NOW"⟩

/-- Payload `{"device": "abc", "pressure": 5}` (non-numeric device id). -/
def c1Payload : Payload := [("device", .vStr "abc"), ("pressure", .vInt 5)]

/-- Channel table containing `(0, "pressure") → 7`, so that processing with
the default device id `0` would append a measurement. -/
def c1DB : DBState := ⟨[(0, "pressure", 7)], [], []⟩

/-- The spec scenario payload
`{"device": 1, "pressure": -5, "timestamp": "2024-06-01T00:00:00"}`. -/
def c2Payload : Payload :=
  [("device", .vInt 1), ("pressure", .vInt (-5)),
   ("timestamp", .vStr "2024-06-01T00:00:00")]

/-- Channel table containing `(1, "pressure") → 7`, empty measurement and
dev tables. -/
def c2DB : DBState := ⟨[(1, "pressure", 7)], [], []⟩

/-- Payload `{"device": 1, "pressure": 5}` (no timestamp field). -/
def c8Payload : Payload := [("device", .vInt 1), ("pressure", .vInt 5)]

/-- Channel table containing `(1, "pressure") → 7`, empty measurement and
dev tables. -/
def c8DB : DBState := ⟨[(1, "pressure", 7)], [], []⟩

/-- The row `on_message` appends for `c8Payload` in environment `envAllOk`. -/
def c8Row : Row := ⟨7, 5, "Good", .vStr "NOW"⟩

/-- Channel table containing `(1, "alarm") → 3`. -/
def c10DB : DBState := ⟨[(1, "alarm", 3)], [], []⟩

/-! ### Helper lemmas: one step of the field loop -/

/-- A reserved key is skipped. -/
theorem pf_step_reserved (w : Nat → Bool) (d : Int) (ts : PyVal) (st : DBState)
    (i : Nat) (k : String) (v : PyVal) (rest : Payload)
    (hk : k ∈ reservedKeys) :
    processFields w d ts st i ((k, v) :: rest) = processFields w d ts st i rest := by
  simp [processFields, hk]

/-- A non-numeric value is skipped. -/
theorem pf_step_nonNumeric (w : Nat → Bool) (d : Int) (ts : PyVal) (st : DBState)
    (i : Nat) (k : String) (v : PyVal) (rest : Payload)
    (hk : k ∉ reservedKeys) (hv : isNumericPy v = false) :
    processFields w d ts st i ((k, v) :: rest) = processFields w d ts st i rest := by
  simp [processFields, hk, hv]

/-- A field whose `(device, key)` pair has no channel row is skipped and the
loop continues with the remaining fields. -/
theorem pf_step_noChannel (w : Nat → Bool) (d : Int) (ts : PyVal) (st : DBState)
    (i : Nat) (k : String) (v : PyVal) (rest : Payload)
    (hk : k ∉ reservedKeys) (hv : isNumericPy v = true)
    (hch : channelLookup st d k = []) :
    processFields w d ts st i ((k, v) :: rest) = processFields w d ts st i rest := by
  simp [processFields, hk, hv, hch]

/-- Both inserts succeed: the same row is appended to `measurement` and to
`dev`, and the loop continues with the remaining fields. -/
theorem pf_step_ok (w : Nat → Bool) (d : Int) (ts : PyVal) (st : DBState)
    (i : Nat) (k : String) (v : PyVal) (rest : Payload) (cid : Int) (cids : List Int)
    (hk : k ∉ reservedKeys) (hv : isNumericPy v = true)
    (hch : channelLookup st d k = cid :: cids)
    (hw1 : w i = true) (hw2 : w (i + 1) = true) :
    processFields w d ts st i ((k, v) :: rest)
      = processFields w d ts
          { st with measurement := st.measurement ++ [⟨cid, pyFloat v, "Good", ts⟩],
                    dev := st.dev ++ [⟨cid, pyFloat v, "Good", ts⟩] }
          (i + 2) rest := by
  simp [processFields, hk, hv, hch, hw1, hw2]

/-- The `measurement` insert fails: it rolls back (state unchanged) and the
exception aborts the loop. -/
theorem pf_step_measFail (w : Nat → Bool) (d : Int) (ts : PyVal) (st : DBState)
    (i : Nat) (k : String) (v : PyVal) (rest : Payload) (cid : Int) (cids : List Int)
    (hk : k ∉ reservedKeys) (hv : isNumericPy v = true)
    (hch : channelLookup st d k = cid :: cids)
    (hw1 : w i = false) :
    processFields w d ts st i ((k, v) :: rest) = (st, i + 1, false) := by
  simp [processFields, hk, hv, hch, hw1]

/-- The `dev` insert fails after the `measurement` insert committed: the
measurement row stays and the exception aborts the loop. -/
theorem pf_step_devFail (w : Nat → Bool) (d : Int) (ts : PyVal) (st : DBState)
    (i : Nat) (k : String) (v : PyVal) (rest : Payload) (cid : Int) (cids : List Int)
    (hk : k ∉ reservedKeys) (hv : isNumericPy v = true)
    (hch : channelLookup st d k = cid :: cids)
    (hw1 : w i = true) (hw2 : w (i + 1) = false) :
    processFields w d ts st i ((k, v) :: rest)
      = ({ st with measurement := st.measurement ++ [⟨cid, pyFloat v, "Good", ts⟩] },
         i + 2, false) := by
  simp [processFields, hk, hv, hch, hw1, hw2]

/-- Every row in the `measurement` table after the field loop either was
there before or carries quality `"Good"`. -/
theorem pf_quality_good (w : Nat → Bool) (d : Int) (ts : PyVal) :
    ∀ (p : Payload) (st : DBState) (i : Nat) (r : Row),
      r ∈ (processFields w d ts st i p).1.measurement →
      r ∈ st.measurement ∨ r.quality = "Good" := by
  intro p
  induction p with
  | nil => intro st i r hr; exact Or.inl hr
  | cons kv rest ih =>
    obtain ⟨k, v⟩ := kv
    intro st i r hr
    by_cases hk : k ∈ reservedKeys
    · rw [pf_step_reserved w d ts st i k v rest hk] at hr
      exact ih st i r hr
    · cases hv : isNumericPy v with
      | false =>
        rw [pf_step_nonNumeric w d ts st i k v rest hk hv] at hr
        exact ih st i r hr
      | true =>
        cases hch : channelLookup st d k with
        | nil =>
          rw [pf_step_noChannel w d ts st i k v rest hk hv hch] at hr
          exact ih st i r hr
        | cons cid cids =>
          cases hw1 : w i with
          | false =>
            rw [pf_step_measFail w d ts st i k v rest cid cids hk hv hch hw1] at hr
            exact Or.inl hr
          | true =>
            cases hw2 : w (i + 1) with
            | false =>
              rw [pf_step_devFail w d ts st i k v rest cid cids hk hv hch hw1 hw2] at hr
              rcases List.mem_append.mp hr with h1 | h2
              · exact Or.inl h1
              · right
                rw [List.mem_singleton.mp h2]
            | true =>
              rw [pf_step_ok w d ts st i k v rest cid cids hk hv hch hw1 hw2] at hr
              rcases ih _ _ r hr with hmem | hq
              · rcases List.mem_append.mp hmem with h1 | h2
                · exact Or.inl h1
                · right
                  rw [List.mem_singleton.mp h2]
              · exact Or.inr hq

/-- When the retry budget is exhausted without a successful connection,
`on_message` leaves the database state unchanged. -/
theorem on_message_db_down (env : Env) (st : DBState) (payload : Payload)
    (h : (connect_db_with_retry env.connectOk 5 2).success = false) :
    on_message env st (some payload) = st := by
  show handleDecoded env st payload = st
  unfold handleDecoded
  cases hd : pyInt (pyGet payload "device" (.vInt 0)) with
  | none => rfl
  | some d => simp [h]

/-- When `int(payload.get("device", 0))` raises, the handler's outer
`except` catches it and the state is unchanged. -/
theorem on_message_device_error (env : Env) (st : DBState) (payload : Payload)
    (h : pyInt (pyGet payload "device" (.vInt 0)) = none) :
    on_message env st (some payload) = st := by
  show handleDecoded env st payload = st
  unfold handleDecoded
  rw [h]

/-! ### Helper lemmas: the connection retry loop -/

/-- The retry loop makes at most `fuel` attempts. -/
theorem connectRetryAux_attempts_le (ok : Nat → Bool) (d : Nat) :
    ∀ (fuel a : Nat), (connectRetryAux ok d a fuel).attempts ≤ fuel := by
  intro fuel
  induction fuel with
  | zero => intro a; simp [connectRetryAux]
  | succ f ih =>
    intro a
    cases h : ok a with
    | true => simp [connectRetryAux, h]
    | false =>
      simp only [connectRetryAux, h, Bool.false_eq_true, if_false]
      exact Nat.succ_le_succ (ih (a + 1))

/-- The retry loop returns `True` exactly when some attempt within the
budget succeeds. -/
theorem connectRetryAux_success_iff (ok : Nat → Bool) (d : Nat) :
    ∀ (fuel a : Nat),
      (connectRetryAux ok d a fuel).success = true
        ↔ ∃ j, j < fuel ∧ ok (a + j) = true := by
  intro fuel
  induction fuel with
  | zero => intro a; simp [connectRetryAux]
  | succ f ih =>
    intro a
    cases h : ok a with
    | true =>
      simp only [connectRetryAux, h, if_true, true_iff]
      exact ⟨0, Nat.succ_pos f, by simpa using h⟩
    | false =>
      simp only [connectRetryAux, h, Bool.false_eq_true, if_false]
      rw [ih (a + 1)]
      constructor
      · rintro ⟨j, hj, hok⟩
        refine ⟨j + 1, by omega, ?_⟩
        have harith : a + (j + 1) = a + 1 + j := by omega
        rwa [harith]
      · rintro ⟨j, hj, hok⟩
        cases j with
        | zero =>
          rw [Nat.add_zero] at hok
          rw [h] at hok
          exact absurd hok (by simp)
        | succ m =>
          refine ⟨m, by omega, ?_⟩
          have harith : a + 1 + m = a + (m + 1) := by omega
          rwa [harith]

/-- When every attempt in the budget fails, the loop exhausts the budget,
returns `False`, and sleeps `d` seconds after every one of the `fuel`
failures. -/
theorem connectRetryAux_all_fail (ok : Nat → Bool) (d : Nat) :
    ∀ (fuel a : Nat), (∀ j, j < fuel → ok (a + j) = false) →
      connectRetryAux ok d a fuel = ⟨false, fuel, d * fuel⟩ := by
  intro fuel
  induction fuel with
  | zero => intro a _; simp [connectRetryAux]
  | succ f ih =>
    intro a h
    have h0 : ok a = false := by simpa using h 0 (Nat.succ_pos f)
    have hrec := ih (a + 1) (fun j hj => by
      have hx := h (j + 1) (by omega)
      have harith : a + (j + 1) = a + 1 + j := by omega
      rwa [harith] at hx)
    simp [connectRetryAux, h0, hrec, Nat.mul_succ]

/-- When attempt `n` is the first to succeed and is within the budget, the
loop stops right there: `n + 1` attempts, `True`, and `d` seconds of sleep
per preceding failure. -/
theorem connectRetryAux_first_success (ok : Nat → Bool) (d : Nat) :
    ∀ (n fuel a : Nat), n < fuel → ok (a + n) = true →
      (∀ j, j < n → ok (a + j) = false) →
      connectRetryAux ok d a fuel = ⟨true, n + 1, d * n⟩ := by
  intro n
  induction n with
  | zero =>
    intro fuel a hn hok _
    cases fuel with
    | zero => omega
    | succ f =>
      have h0 : ok a = true := by simpa using hok
      simp [connectRetryAux, h0]
  | succ m ih =>
    intro fuel a hn hok hmin
    cases fuel with
    | zero => omega
    | succ f =>
      have h0 : ok a = false := by simpa using hmin 0 (Nat.succ_pos m)
      have hok1 : ok (a + 1 + m) = true := by
        have harith : a + 1 + m = a + (m + 1) := by omega
        rwa [harith]
      have hrec := ih f (a + 1) (by omega) hok1 (fun j hj => by
        have hx := hmin (j + 1) (by omega)
        have harith : a + (j + 1) = a + 1 + j := by omega
        rwa [harith] at hx)
      simp [connectRetryAux, h0, hrec, Nat.mul_succ]

/-! ### Claim theorems -/

/-- Claim C1, counterexample: for the payload
`{"device": "abc", "pressure": 5}` the non-numeric `device` value makes
`int()` raise, so the whole message is dropped (state unchanged, zero
measurement rows) — it is NOT processed with device 0, although the channel
`(0, "pressure") → 7` exists and the same payload with `device` simply
absent does produce a row for that channel. -/
theorem C1_counterexample :
    pyInt (pyGet c1Payload "device" (.vInt 0)) = none
    ∧ on_message envAllOk c1DB (some c1Payload) = c1DB
    ∧ (on_message envAllOk c1DB (some c1Payload)).measurement = []
    ∧ (on_message envAllOk c1DB (some [("pressure", .vInt 5)])).measurement
        = [⟨7, 5, "Good", .vStr "NOW"⟩] :=
  ⟨rfl, rfl, rfl, rfl⟩

/-- Claim C1, amended: the device id is `int(payload.get("device", 0))`; it
defaults to `0` only when the `device` field is absent, while a `device`
value that `int()` cannot coerce (non-numeric string, null, …) raises inside
the handler, which catches the exception and drops the whole message with
zero measurement rows. -/
theorem C1_device_default_only_when_absent (payload : Payload) (env : Env)
    (st : DBState) :
    (payload.find? (fun kv => kv.1 == "device") = none →
      pyInt (pyGet payload "device" (.vInt 0)) = some 0)
    ∧ (pyInt (pyGet payload "device" (.vInt 0)) = none →
      on_message env st (some payload) = st
      ∧ (on_message env st (some payload)).measurement = st.measurement) := by
  constructor
  · intro h
    unfold pyGet
    rw [h]
    rfl
  · intro h
    have he := on_message_device_error env st payload h
    exact ⟨he, by rw [he]⟩

/-- Claim C1, witness: instantiates the amended claim at a payload without a
`device` field and at the counterexample payload. -/
theorem C1_witness :
    pyInt (pyGet [("pressure", PyVal.vInt 5)] "device" (PyVal.vInt 0)) = some 0
    ∧ (on_message envAllOk c1DB (some c1Payload) = c1DB
      ∧ (on_message envAllOk c1DB (some c1Payload)).measurement
          = c1DB.measurement) :=
  ⟨(C1_device_default_only_when_absent [("pressure", PyVal.vInt 5)] envAllOk c1DB).1 rfl,
   (C1_device_default_only_when_absent c1Payload envAllOk c1DB).2 rfl⟩

/-- Claim C2, counterexample: the spec scenario payload
`{"device": 1, "pressure": -5, "timestamp": "2024-06-01T00:00:00"}` with
channel `(1, "pressure") → 7` yields the row
`(7, -5.0, "Good", "2024-06-01T00:00:00")`: the quality is `"Good"` even
though the value is not `> 0`, because the handler assigns
`quality = 'Good'` unconditionally (the sign-based classification is
commented out in the source). -/
theorem C2_counterexample :
    (on_message envAllOk c2DB (some c2Payload)).measurement
      = [⟨7, -5, "Good", .vStr "2024-06-01T00:00:00"⟩]
    ∧ (on_message envAllOk c2DB (some c2Payload)).measurement
      ≠ [⟨7, -5, "Uncertain", .vStr "2024-06-01T00:00:00"⟩] :=
  ⟨rfl, by decide⟩

/-- Claim C2, amended: every measurement row appended by `on_message`
carries quality `"Good"` regardless of the sign of the value: any row of the
resulting `measurement` table either predates the message or has quality
`"Good"`. -/
theorem C2_quality_always_good (env : Env) (st : DBState) (msg : Option Payload)
    (r : Row) (hr : r ∈ (on_message env st msg).measurement) :
    r ∈ st.measurement ∨ r.quality = "Good" := by
  cases msg with
  | none => exact Or.inl hr
  | some payload =>
    revert hr
    show r ∈ (handleDecoded env st payload).measurement → _
    unfold handleDecoded
    cases hd : pyInt (pyGet payload "device" (.vInt 0)) with
    | none => exact fun hr => Or.inl hr
    | some d =>
      cases hcs : (connect_db_with_retry env.connectOk 5 2).success with
      | false => simp only [Bool.false_eq_true, if_false]; exact fun hr => Or.inl hr
      | true =>
        simp only [if_true]
        intro hr
        exact pf_quality_good env.writeOk d _ payload st 0 r hr

/-- Claim C2, witness: instantiates the amended claim at the scenario
payload and its appended row. -/
theorem C2_witness :
    (⟨7, -5, "Good", PyVal.vStr "2024-06-01T00:00:00"⟩ : Row) ∈ c2DB.measurement
    ∨ (⟨7, -5, "Good", PyVal.vStr "2024-06-01T00:00:00"⟩ : Row).quality = "Good" :=
  C2_quality_always_good envAllOk c2DB (some c2Payload)
    ⟨7, -5, "Good", PyVal.vStr "2024-06-01T00:00:00"⟩ (by decide)

/-- Claim C4: a raw payload on which `json.loads` raises is dropped: the
handler catches the exception (it is a total function, so no exception
escapes), the state is unchanged and zero measurement rows are written; no
retry mechanism exists. -/
theorem C4_nonjson_dropped (env : Env) (st : DBState) :
    on_message env st none = st
    ∧ (on_message env st none).measurement = st.measurement :=
  ⟨rfl, rfl⟩

/-- Claim C5: a field whose `(device, field-name)` pair has no channel row
writes no measurement and the loop continues with the remaining fields of
the same payload, exactly as if the field were not there. -/
theorem C5_missing_channel_skips_field (w : Nat → Bool) (d : Int) (ts : PyVal)
    (st : DBState) (i : Nat) (k : String) (v : PyVal) (rest : Payload)
    (hk : k ∉ reservedKeys) (hv : isNumericPy v = true)
    (hch : channelLookup st d k = []) :
    processFields w d ts st i ((k, v) :: rest) = processFields w d ts st i rest :=
  pf_step_noChannel w d ts st i k v rest hk hv hch

/-- Claim C5, witness: a concrete field with no channel row is skipped. -/
theorem C5_witness :
    processFields (fun _ => true) 1 (PyVal.vStr "NOW") ⟨[], [], []⟩ 0
        [("flow", PyVal.vInt 1)]
      = processFields (fun _ => true) 1 (PyVal.vStr "NOW") ⟨[], [], []⟩ 0 [] :=
  C5_missing_channel_skips_field (fun _ => true) 1 (PyVal.vStr "NOW") ⟨[], [], []⟩ 0
    "flow" (PyVal.vInt 1) [] (by decide) rfl rfl

/-- Environment whose database connection succeeds only on the 4th attempt
(index 3), with all inserts succeeding. -/
def envConnect4 : Env := ⟨fun i => i == 3, fun _ => true, "NOW"⟩

/-- Environment whose database connection never succeeds. -/
def envDbDown : Env := ⟨fun _ => false, fun _ => true, "NOW"⟩

/-- Claim C3: `connect_db_with_retry` makes at most 5 attempts; it returns
`True` exactly when some attempt within the budget succeeds, stopping at the
first success after sleeping 2 seconds per preceding failure (so a database
reachable on attempt 4 gives `True` after 4 attempts, and the message is
fully processed and written); when all 5 attempts fail it returns `False`
after 5 attempts and 10 seconds of sleep, the message is dropped with zero
measurement writes, and the handler returns normally so a subsequent message
is still processed. -/
theorem C3_retry_budget (connectOk : Nat → Bool) (env : Env) (st : DBState)
    (payload : Payload) (a : Nat) :
    (connect_db_with_retry connectOk 5 2).attempts ≤ 5
    ∧ ((connect_db_with_retry connectOk 5 2).success = true
        ↔ ∃ i, i < 5 ∧ connectOk i = true)
    ∧ (a < 5 → connectOk a = true → (∀ j, j < a → connectOk j = false) →
        connect_db_with_retry connectOk 5 2 = ⟨true, a + 1, 2 * a⟩)
    ∧ ((∀ i, i < 5 → connectOk i = false) →
        connect_db_with_retry connectOk 5 2 = ⟨false, 5, 10⟩)
    ∧ ((∀ i, i < 5 → env.connectOk i = false) →
        on_message env st (some payload) = st)
    ∧ (on_message envConnect4 c8DB (some c8Payload)).measurement = [c8Row]
    ∧ (on_message envAllOk (on_message envDbDown c8DB (some c8Payload))
        (some c8Payload)).measurement = [c8Row] := by
  refine ⟨connectRetryAux_attempts_le connectOk 2 5 0, ?_, ?_, ?_, ?_, rfl, ?_⟩
  · have h := connectRetryAux_success_iff connectOk 2 5 0
    simpa using h
  · intro ha hok hmin
    have h := connectRetryAux_first_success connectOk 2 a 5 0 ha (by simpa using hok)
      (fun j hj => by simpa using hmin j hj)
    simpa using h
  · intro hall
    have h := connectRetryAux_all_fail connectOk 2 5 0 (fun j hj => by simpa using hall j hj)
    simpa using h
  · intro hall
    apply on_message_db_down
    have h := connectRetryAux_all_fail env.connectOk 2 5 0
      (fun j hj => by simpa using hall j hj)
    rw [show connect_db_with_retry env.connectOk 5 2
          = connectRetryAux env.connectOk 2 0 5 from rfl, h]
  · have hdrop : on_message envDbDown c8DB (some c8Payload) = c8DB := by
      apply on_message_db_down
      rfl
    rw [hdrop]
    rfl

/-- Claim C3, witness: the budget facts at the environment that succeeds on
attempt 4 and at the never-reachable environment. -/
theorem C3_witness :
    connect_db_with_retry (fun i => i == 3) 5 2 = ⟨true, 4, 6⟩
    ∧ connect_db_with_retry (fun _ => false) 5 2 = ⟨false, 5, 10⟩
    ∧ on_message envDbDown c8DB (some c8Payload) = c8DB :=
  ⟨(C3_retry_budget (fun i => i == 3) envDbDown c8DB c8Payload 3).2.2.1
      (by decide) (by decide) (by decide),
   (C3_retry_budget (fun _ => false) envDbDown c8DB c8Payload 0).2.2.2.1
      (fun i _ => rfl),
   (C3_retry_budget (fun _ => false) envDbDown c8DB c8Payload 0).2.2.2.2.1
      (fun i _ => rfl)⟩

/-- Payload `{"device": 1, "a": 1, "b": 2}`. -/
def c6Payload : Payload :=
  [("device", .vInt 1), ("a", .vInt 1), ("b", .vInt 2)]

/-- Channel table containing `(1, "a") → 10` and `(1, "b") → 11`. -/
def c6DB : DBState := ⟨[(1, "a", 10), (1, "b", 11)], [], []⟩

/-- Environment in which the first two inserts (both inserts of field `a`)
succeed and the third insert (the `measurement` insert of field `b`)
fails. -/
def c6Env : Env := ⟨fun _ => true, fun j => decide (j < 2), "NOW"⟩

/-- The row committed for field `a` of `c6Payload`. -/
def c6RowA : Row := ⟨10, 1, "Good", .vStr "NOW"⟩

/-- Claim C6: when an insert fails after a successful connection, it rolls
back only itself, the loop is aborted (the handler logs and returns, so the
collector loop does not crash), and nothing already committed is rolled
back: in the concrete two-field scenario the row of the earlier field `a`
stays committed while field `b` and everything after it are abandoned, so
the payload is partially persisted. -/
theorem C6_write_failure_abandons_message (w : Nat → Bool) (d : Int)
    (ts : PyVal) (st : DBState) (i : Nat) (k : String) (v : PyVal)
    (rest : Payload) (cid : Int) (cids : List Int)
    (hk : k ∉ reservedKeys) (hv : isNumericPy v = true)
    (hch : channelLookup st d k = cid :: cids) (hw : w i = false) :
    processFields w d ts st i ((k, v) :: rest) = (st, i + 1, false)
    ∧ (on_message c6Env c6DB (some c6Payload)).measurement = [c6RowA]
    ∧ (on_message c6Env c6DB (some c6Payload)).dev = [c6RowA] :=
  ⟨pf_step_measFail w d ts st i k v rest cid cids hk hv hch hw, rfl, rfl⟩

/-- Claim C6, witness: a concrete failing insert abandons the message while
preserving the state committed so far. -/
theorem C6_witness :
    processFields (fun _ => false) 1 (PyVal.vStr "NOW") c8DB 0
        [("pressure", PyVal.vInt 5)] = (c8DB, 1, false)
    ∧ (on_message c6Env c6DB (some c6Payload)).measurement = [c6RowA]
    ∧ (on_message c6Env c6DB (some c6Payload)).dev = [c6RowA] :=
  C6_write_failure_abandons_message (fun _ => false) 1 (PyVal.vStr "NOW") c8DB 0
    "pressure" (PyVal.vInt 5) [] 7 [] (by decide) rfl rfl rfl

/-- Claim C7: the lifecycle controller is a two-state machine on the
`_running` flag: from the stopped state with no active loop, `start` spawns
exactly one loop and reports `started`; a second `start` is a no-op that
reports `alreadyRunning` and leaves exactly one loop active; `stop` in the
stopped state is a no-op reporting `notRunning`; and after `stop` of the
running state, `is_running` returns `false`. -/
theorem C7_lifecycle (s : CollectorState) (h : s.running = false)
    (h0 : s.activeLoops = 0) :
    start s = (⟨true, 1⟩, .started)
    ∧ start (start s).1 = ((start s).1, .alreadyRunning)
    ∧ (start (start s).1).1.activeLoops = 1
    ∧ stop s = (s, .notRunning)
    ∧ stop (start s).1 = (⟨false, 0⟩, .stopped)
    ∧ is_running (stop (start s).1).1 = false := by
  obtain ⟨r, l⟩ := s
  simp only at h h0
  subst h h0
  refine ⟨rfl, rfl, rfl, rfl, rfl, rfl⟩

/-- Claim C7, witness: the lifecycle facts at the initial stopped state. -/
theorem C7_witness :
    start ⟨false, 0⟩ = (⟨true, 1⟩, .started)
    ∧ start (start ⟨false, 0⟩).1 = ((start ⟨false, 0⟩).1, .alreadyRunning)
    ∧ (start (start ⟨false, 0⟩).1).1.activeLoops = 1
    ∧ stop ⟨false, 0⟩ = (⟨false, 0⟩, .notRunning)
    ∧ stop (start ⟨false, 0⟩).1 = (⟨false, 0⟩, .stopped)
    ∧ is_running (stop (start ⟨false, 0⟩).1).1 = false :=
  C7_lifecycle ⟨false, 0⟩ rfl rfl

/-- Claim C8: message processing is not idempotent: delivering
`{"device": 1, "pressure": 5}` once appends one row, and delivering the same
payload a second time appends a second, identical row — nothing deduplicates
it. -/
theorem C8_redelivery_duplicates :
    (on_message envAllOk c8DB (some c8Payload)).measurement = [c8Row]
    ∧ (on_message envAllOk (on_message envAllOk c8DB (some c8Payload))
        (some c8Payload)).measurement = [c8Row, c8Row] :=
  ⟨rfl, rfl⟩

/-- Claim C9: a resolved numeric field performs two inserts with the
identical `(channel_id, value, quality, ts)` tuple: one into `measurement`
and one into `dev`; if the `dev` insert fails, the loop is abandoned with
the `measurement` row already committed. -/
theorem C9_double_insert (w : Nat → Bool) (d : Int) (ts : PyVal)
    (st : DBState) (i : Nat) (k : String) (v : PyVal) (rest : Payload)
    (cid : Int) (cids : List Int)
    (hk : k ∉ reservedKeys) (hv : isNumericPy v = true)
    (hch : channelLookup st d k = cid :: cids) (hw1 : w i = true) :
    (w (i + 1) = true →
      processFields w d ts st i ((k, v) :: rest)
        = processFields w d ts
            { st with measurement := st.measurement ++ [⟨cid, pyFloat v, "Good", ts⟩],
                      dev := st.dev ++ [⟨cid, pyFloat v, "Good", ts⟩] }
            (i + 2) rest)
    ∧ (w (i + 1) = false →
      processFields w d ts st i ((k, v) :: rest)
        = ({ st with measurement := st.measurement ++ [⟨cid, pyFloat v, "Good", ts⟩] },
           i + 2, false)) :=
  ⟨fun hw2 => pf_step_ok w d ts st i k v rest cid cids hk hv hch hw1 hw2,
   fun hw2 => pf_step_devFail w d ts st i k v rest cid cids hk hv hch hw1 hw2⟩

/-- Claim C9, witness: the double insert at a concrete field, in an
environment where both inserts succeed and in one where the `dev` insert
fails. -/
theorem C9_witness :
    (processFields (fun _ => true) 1 (PyVal.vStr "NOW") c8DB 0
        [("pressure", PyVal.vInt 5)]
      = processFields (fun _ => true) 1 (PyVal.vStr "NOW")
          { c8DB with measurement := c8DB.measurement ++ [⟨7, pyFloat (PyVal.vInt 5), "Good", PyVal.vStr "NOW"⟩],
                      dev := c8DB.dev ++ [⟨7, pyFloat (PyVal.vInt 5), "Good", PyVal.vStr "NOW"⟩] }
          2 [])
    ∧ (processFields (fun j => j == 0) 1 (PyVal.vStr "NOW") c8DB 0
        [("pressure", PyVal.vInt 5)]
      = ({ c8DB with measurement := c8DB.measurement ++ [⟨7, pyFloat (PyVal.vInt 5), "Good", PyVal.vStr "NOW"⟩] },
         2, false)) :=
  ⟨(C9_double_insert (fun _ => true) 1 (PyVal.vStr "NOW") c8DB 0 "pressure"
      (PyVal.vInt 5) [] 7 [] (by decide) rfl rfl rfl).1 rfl,
   (C9_double_insert (fun j => j == 0) 1 (PyVal.vStr "NOW") c8DB 0 "pressure"
      (PyVal.vInt 5) [] 7 [] (by decide) rfl rfl rfl).2 rfl⟩

/-- Claim C10: a JSON boolean passes the numeric-type check (Python `bool`
is a subtype of `int`), so a `true` value in a field with a matching channel
appends a measurement with value `1.0` and a `false` value appends `0.0`,
instead of the field being excluded as non-numeric. -/
theorem C10_bool_is_numeric :
    isNumericPy (.vBool true) = true
    ∧ isNumericPy (.vBool false) = true
    ∧ pyFloat (.vBool true) = 1
    ∧ pyFloat (.vBool false) = 0
    ∧ (on_message envAllOk c10DB
        (some [("device", .vInt 1), ("alarm", .vBool true)])).measurement
        = [⟨3, 1, "Good", .vStr "NOW"⟩]
    ∧ (on_message envAllOk c10DB
        (some [("device", .vInt 1), ("alarm", .vBool false)])).measurement
        = [⟨3, 0, "Good", .vStr "NOW"⟩] :=
  ⟨rfl, rfl, rfl, rfl, rfl, rfl⟩

end RaspberryPiServer
